import Mathlib

/-!
Verification of the E90 remote-start firmware core against its design spec.

Shallow embedding of the C++ sources:
* `src/lib/canbus/canbus.{h,cpp}` — the interrupt-to-application circular
  frame buffer (`bufferPut` / `bufferGet`);
* `src/lib/CarControl/CarControl.{hpp,cpp}` — the vehicle-state snapshot,
  the CAN decode table `parseCanFrame`, the derived accessors and the
  frame-sending control calls;
* `src/lib/ClimateControl/ClimateControl.cpp` — the climate snapshot,
  its decode table and the seat-heater stepping routines;
* `src/src/CustomKeys.cpp` — the button-gesture finite state machine.

Machine integers are modelled as `Nat` (with explicit `% 2^w` where the C
code truncates) and `Int` for signed values; C `float` fields are modelled
as `ℚ` (every decode transform in this codebase is an exact small-integer
division, so `ℚ` is faithful where the claims look).
-/

namespace E90

/-! ### Embedded definitions (from the C++ sources; spec-side
definitions for refinement claims are marked in their doc comments) -/

/-- `struct CANFrame` from canbus.h: identifier, data-length-code, and the
8-slot payload (modelled as a list of byte values). -/
structure CANFrame where
  id : Nat
  dlc : Nat
  data : List Nat
deriving DecidableEq, Repr

/-- `#define CAN_BUFFER_SIZE 32` from canbus.h. -/
def CAN_BUFFER_SIZE : Nat := 32

/-- The circular-buffer portion of class `CANBus`: the `buffer` array
(modelled as a total function from slot index to frame) and the
`bufferHead` / `bufferTail` indices. -/
structure CANBusBuf where
  buffer : Nat → CANFrame
  bufferHead : Nat
  bufferTail : Nat

/-- The buffer state right after construction (`bufferHead(0), bufferTail(0)`). -/
def CANBusBuf.empty : CANBusBuf :=
  { buffer := fun _ => ⟨0, 0, []⟩, bufferHead := 0, bufferTail := 0 }

/-- `CANBus::bufferPut`: advance the head unless that would collide with the
tail, in which case the frame is dropped and `false` returned. -/
def bufferPut (b : CANBusBuf) (frame : CANFrame) : Bool × CANBusBuf :=
  let nextHead := (b.bufferHead + 1) % CAN_BUFFER_SIZE
  if nextHead = b.bufferTail then
    (false, b)
  else
    (true,
      { buffer := fun j => if j = b.bufferHead then frame else b.buffer j,
        bufferHead := nextHead,
        bufferTail := b.bufferTail })

/-- `CANBus::bufferGet`: empty when head and tail coincide, otherwise yield
the frame at the tail and advance the tail. -/
def bufferGet (b : CANBusBuf) : Option (CANFrame × CANBusBuf) :=
  if b.bufferHead = b.bufferTail then
    none
  else
    some (b.buffer b.bufferTail,
      { b with bufferTail := (b.bufferTail + 1) % CAN_BUFFER_SIZE })

/-- Push a whole list of frames through `bufferPut`, collecting each push's
boolean result and the final buffer state. -/
def pushSeq (b : CANBusBuf) : List CANFrame → List Bool × CANBusBuf
  | [] => ([], b)
  | f :: fs =>
    let r := bufferPut b f
    let rest := pushSeq r.2 fs
    (r.1 :: rest.1, rest.2)

/-- Drain the buffer with `bufferGet`, attempting at most `n` reads and
stopping at the first empty read. -/
def drainN (b : CANBusBuf) : Nat → List CANFrame
  | 0 => []
  | n + 1 =>
    match bufferGet b with
    | none => []
    | some (f, b2) => f :: drainN b2 n

/-- Read payload byte `i`: the C payload array holds `uint8_t`, so every
read is a value below 256 (missing bytes of a short modelled list read 0,
matching a zero-initialised frame). -/
def byteAt (data : List Nat) (i : Nat) : Nat := data.getD i 0 % 256

/-- The modelled payload is a list of genuine byte values. -/
def Bytes (data : List Nat) : Prop := ∀ b ∈ data, b < 256

/-- `int16_t` conversion of a C `int` expression whose value is in
`[0, 65536)` (the shifted-or of two bytes). -/
def toInt16 (x : Nat) : Int :=
  if x % 65536 < 32768 then (x % 65536 : Int) else (x % 65536 : Int) - 65536

/-- `int8_t` conversion of a C `int` expression (wraps modulo 256 into
`[-128, 128)`). -/
def toInt8 (x : Int) : Int := (x + 128) % 256 - 128

/-- `CarControl::getNibble`. -/
def getNibble (b : Nat) (nibbleIndex : Nat) : Nat :=
  if nibbleIndex = 0 then b &&& 0x0F else (b >>> 4) &&& 0x0F

/-- `CarControl::getBit` (also duplicated as `ClimateControl::getBit`). -/
def getBit (b : Nat) (bitPos : Nat) : Bool := b &&& (1 <<< bitPos) ≠ 0

/-- `enum KeyState` from CarControl.hpp. -/
inductive KeyState
  | KEY_ENGINE_OFF
  | KEY_INSERTING
  | KEY_POSITION_1
  | KEY_POSITION_2
  | KEY_CRANKING
deriving DecidableEq, Repr

/-- `enum IgnitionStatus` from CarControl.hpp. -/
inductive IgnitionStatus
  | IGNITION_OFF
  | IGNITION_SECOND
  | IGNITION_RUNNING
deriving DecidableEq, Repr

/-- `enum WindowPosition` from CarControl.hpp. -/
inductive WindowPosition
  | WINDOW_NEUTRAL
  | WINDOW_ROLL_DOWN
  | WINDOW_ROLL_UP
deriving DecidableEq, Repr

/-- Window selection flags from CarControl.hpp. -/
def DRIVER_FRONT : Nat := 0x01

def PASSENGER_FRONT : Nat := 0x02

def DRIVER_REAR : Nat := 0x04

def PASSENGER_REAR : Nat := 0x08

/-- `struct CarState` from CarControl.hpp. -/
structure CarState where
  braking : Bool
  doorLocked : Bool
  doorOpen : Bool
  driverDoorOpen : Bool
  doorOpenDriverFront : Bool
  doorOpenPassengerFront : Bool
  doorOpenDriverRear : Bool
  doorOpenPassengerRear : Bool
  mirrorsRetracted : Bool
  parkingBrakeOn : Bool
  steeringButtonPressed : Nat
  seatBeltPlugged : Bool
  brakeStatus : Nat
  domeLightBrightness : Nat
  batteryVoltage : ℚ
  engineFlagFromCAN : Bool
  windowPosDriverFront : Nat
  windowPosPassengerFront : Nat
  windowPosDriverRear : Nat
  windowPosPassengerRear : Nat
  engineRPM : Nat
  throttlePosition : Nat
  steeringWheelAngle : ℚ
  speed : ℚ
  engineTemp : Int
  odometer : Nat
  range : ℚ
  fuelLevel : Nat
  torque : ℚ
  keyStateRaw : Nat
  keyStateAvailable : Bool
  gearPositionRaw : Nat
deriving DecidableEq, Repr

/-- The zeroed snapshot produced by `memset(&state, 0, sizeof(state))` in
the `CarControl` constructor. -/
def CarState.init : CarState :=
  { braking := false, doorLocked := false, doorOpen := false, driverDoorOpen := false
    doorOpenDriverFront := false, doorOpenPassengerFront := false
    doorOpenDriverRear := false, doorOpenPassengerRear := false
    mirrorsRetracted := false, parkingBrakeOn := false, steeringButtonPressed := 0
    seatBeltPlugged := false, brakeStatus := 0, domeLightBrightness := 0
    batteryVoltage := 0, engineFlagFromCAN := false
    windowPosDriverFront := 0, windowPosPassengerFront := 0
    windowPosDriverRear := 0, windowPosPassengerRear := 0
    engineRPM := 0, throttlePosition := 0, steeringWheelAngle := 0, speed := 0
    engineTemp := 0, odometer := 0, range := 0, fuelLevel := 0, torque := 0
    keyStateRaw := 0, keyStateAvailable := false, gearPositionRaw := 0 }

/-- `CarControl::parseCanFrame`: the decode table, one branch per CAN
identifier, exactly as the `switch` in CarControl.cpp (the `0x0ea`/`0x0ee`
cases call the placeholder no-op handlers). -/
def parseCanFrame (st : CarState) (id : Nat) (data : List Nat) (len : Nat) : CarState :=
  if len = 0 then st
  else if id = 0x0a8 then
    let st1 := if len > 1 then { st with braking := getNibble (byteAt data 1) 1 = 6 } else st
    if len > 2 then
      { st1 with torque := (toInt16 (byteAt data 2 <<< 8 ||| byteAt data 1) : ℚ) / 32 }
    else st1
  else if id = 0x0aa then
    let st1 :=
      if len > 5 then
        { st with engineRPM := (byteAt data 5 <<< 8 ||| byteAt data 4) / 4 }
      else st
    if len > 3 then
      let rawThrottle := byteAt data 3 <<< 8 ||| byteAt data 2
      if len > 6 ∧ byteAt data 6 = 0xB4 then
        { st1 with throttlePosition := 255 }
      else if rawThrottle ≤ 255 then
        { st1 with throttlePosition := 0 }
      else
        let scaled := (rawThrottle - 255) * 254 / 64809
        { st1 with throttlePosition := if scaled > 254 then 254 else scaled }
    else st1
  else if id = 0x130 then
    if len > 0 then { st with keyStateRaw := byteAt data 0, keyStateAvailable := true }
    else st
  else if id = 0x1a1 then
    if len > 3 then
      { st with speed := ((byteAt data 3 <<< 8 ||| byteAt data 2 : Nat) : ℚ) / 100 }
    else st
  else if id = 0x0c8 then
    if len > 1 then
      let rawAngle := byteAt data 1 <<< 8 ||| byteAt data 0
      let signedAngle : Int := if rawAngle > 32767 then (rawAngle : Int) - 65536 else (rawAngle : Int)
      { st with steeringWheelAngle := (signedAngle : ℚ) / 23 }
    else st
  else if id = 0x0e2 then
    { st with doorLocked := byteAt data 0 = 2 }
  else if id = 0x0e6 then
    if len > 2 then { st with doorOpen := byteAt data 2 = 0xfd } else st
  else if id = 0x0f6 then
    { st with mirrorsRetracted := byteAt data 0 = 0xf3 }
  else if id = 0x1b4 then
    if len > 5 then { st with parkingBrakeOn := byteAt data 5 = 0x32 } else st
  else if id = 0x1d0 then
    if len > 0 then { st with engineTemp := toInt8 ((byteAt data 0 : Int) - 48) } else st
  else if id = 0x1d6 then
    if len > 1 then { st with steeringButtonPressed := byteAt data 0 <<< 8 ||| byteAt data 1 }
    else st
  else if id = 0x1e1 then
    if len > 2 then { st with driverDoorOpen := getNibble (byteAt data 2) 0 = 1 } else st
  else if id = 0x286 then
    if len > 1 then { st with domeLightBrightness := byteAt data 1 } else st
  else if id = 0x2b2 then
    if len > 0 then { st with brakeStatus := min (byteAt data 0) 0x80 * 255 / 0x80 } else st
  else if id = 0x2f1 then
    if len > 2 then { st with seatBeltPlugged := getNibble (byteAt data 2) 0 &&& 0b0001 > 0 }
    else st
  else if id = 0x2fc then
    if len > 1 then
      { st with
        doorOpenDriverFront := getBit (byteAt data 1) 0
        doorOpenPassengerFront := getBit (byteAt data 1) 2
        doorOpenDriverRear := getBit (byteAt data 1) 4
        doorOpenPassengerRear := getBit (byteAt data 1) 6 }
    else st
  else if id = 0x304 then
    if len > 0 then { st with gearPositionRaw := byteAt data 0 } else st
  else if id = 0x330 then
    let st1 :=
      if len > 2 then
        { st with odometer := byteAt data 2 <<< 16 ||| byteAt data 1 <<< 8 ||| byteAt data 0 }
      else st
    let st2 := if len > 3 then { st1 with fuelLevel := byteAt data 3 } else st1
    if len > 7 then
      { st2 with range := ((byteAt data 7 <<< 8 ||| byteAt data 6 : Nat) : ℚ) / 16 }
    else st2
  else if id = 0x3b4 then
    let st1 :=
      if len > 1 then
        { st with batteryVoltage :=
            (((byteAt data 1 <<< 8 ||| byteAt data 0 : Nat) : Int) - 0xf000 : ℚ) / 68 }
      else st
    if len > 2 then { st1 with engineFlagFromCAN := byteAt data 2 = 0x00 } else st1
  else if id = 0x3b6 then
    if len > 0 then { st with windowPosDriverFront := min (byteAt data 0) 0x50 * 255 / 0x50 }
    else st
  else if id = 0x3b7 then
    if len > 0 then { st with windowPosDriverRear := min (byteAt data 0) 0x50 * 255 / 0x50 }
    else st
  else if id = 0x3b8 then
    if len > 0 then { st with windowPosPassengerFront := min (byteAt data 0) 0x50 * 255 / 0x50 }
    else st
  else if id = 0x3b9 then
    if len > 0 then { st with windowPosPassengerRear := min (byteAt data 0) 0x50 * 255 / 0x50 }
    else st
  else st

/-- `CarControl::getKeyState`. -/
def getKeyState (st : CarState) : KeyState :=
  if !st.keyStateAvailable then .KEY_ENGINE_OFF
  else if st.keyStateRaw = 0x00 then .KEY_ENGINE_OFF
  else if st.keyStateRaw = 0x40 then .KEY_INSERTING
  else if st.keyStateRaw = 0x41 then .KEY_POSITION_1
  else if st.keyStateRaw = 0x45 then .KEY_POSITION_2
  else if st.keyStateRaw = 0x55 then .KEY_CRANKING
  else .KEY_ENGINE_OFF

/-- `CarControl::isEngineRunning`. -/
def isEngineRunning (st : CarState) : Bool :=
  if st.keyStateAvailable then
    decide ((getKeyState st = .KEY_POSITION_2 ∨ getKeyState st = .KEY_CRANKING) ∧
      st.engineRPM > 400)
  else
    st.engineFlagFromCAN && decide (st.engineRPM > 400)

/-- `CarControl::getIgnitionStatus`. -/
def getIgnitionStatus (st : CarState) : IgnitionStatus :=
  if st.engineRPM > 400 then .IGNITION_RUNNING
  else if st.keyStateAvailable then
    if getKeyState st = .KEY_ENGINE_OFF ∨ getKeyState st = .KEY_INSERTING ∨
        getKeyState st = .KEY_POSITION_1 then .IGNITION_OFF
    else .IGNITION_SECOND
  else if !st.engineFlagFromCAN then .IGNITION_OFF
  else .IGNITION_SECOND

/-- `CarControl::getTorque`. -/
def getTorque (st : CarState) : ℚ :=
  if isEngineRunning st then st.torque else 0

/-- `CarControl::getEngineRPM`. -/
def getEngineRPM (st : CarState) : Nat := st.engineRPM

/-- `CarControl::getThrottlePosition`. -/
def getThrottlePosition (st : CarState) : Nat := st.throttlePosition

/-- The external transceiver's `write(frame) -> bool` (§6): modelled by the
boolean result it yields for each frame handed to it. -/
def Transceiver : Type := CANFrame → Bool

/-- The TX frame built by both `sendCanFrame` implementations: `frame.id = id`,
`frame.dlc = len`, the first `min len 8` payload slots copied from `data`
(the remaining slots, never covered by `dlc`, are taken as 0). -/
def mkTxFrame (id : Nat) (data : List Nat) (len : Nat) : CANFrame :=
  { id := id, dlc := len,
    data := (List.range 8).map fun i => if i < min len 8 then byteAt data i else 0 }

/-- `CarControl::sendCanFrame`: returns false when `canBus` is null,
otherwise exactly the transceiver's write result. -/
def CarControl.sendCanFrame (canBus : Option Transceiver) (id : Nat)
    (data : List Nat) (len : Nat) : Bool :=
  match canBus with
  | none => false
  | some wr => wr (mkTxFrame id data len)

/-- The 3-byte payload built by `CarControl::setWindow`: per-window
direction bit flags OR'd into fixed high bytes `0xC0, 0xC0, 0xFF`. -/
def setWindowData (windowMask : Nat) (pos : WindowPosition) : List Nat :=
  let d0 := 0xc0
  let d1 := 0xc0
  let d0 := if windowMask &&& DRIVER_FRONT ≠ 0 then
      (if pos = .WINDOW_ROLL_DOWN then d0 ||| 0x02
       else if pos = .WINDOW_ROLL_UP then d0 ||| 0x04 else d0)
    else d0
  let d0 := if windowMask &&& PASSENGER_FRONT ≠ 0 then
      (if pos = .WINDOW_ROLL_DOWN then d0 ||| 0x10
       else if pos = .WINDOW_ROLL_UP then d0 ||| 0x20 else d0)
    else d0
  let d1 := if windowMask &&& DRIVER_REAR ≠ 0 then
      (if pos = .WINDOW_ROLL_DOWN then d1 ||| 0x02
       else if pos = .WINDOW_ROLL_UP then d1 ||| 0x04 else d1)
    else d1
  let d1 := if windowMask &&& PASSENGER_REAR ≠ 0 then
      (if pos = .WINDOW_ROLL_DOWN then d1 ||| 0x10
       else if pos = .WINDOW_ROLL_UP then d1 ||| 0x20 else d1)
    else d1
  [d0, d1, 0xff]

/-- `CarControl::setWindow`. -/
def setWindow (canBus : Option Transceiver) (windowMask : Nat) (pos : WindowPosition) : Bool :=
  match canBus with
  | none => false
  | some _ => CarControl.sendCanFrame canBus 0x0fa (setWindowData windowMask pos) 3

/-- The 8-byte payload built by `CarControl::sendFakeRPM`:
`rawRPM = rpm * 4` (`uint16_t`, wraps mod 65536), bytes 4-5 little-endian,
bytes 2-3 the idle throttle marker `0xFF, 0x00`. -/
def sendFakeRPM_data (rpm : Nat) : List Nat :=
  let rawRPM := rpm * 4 % 65536
  [0, 0, 0xFF, 0x00, rawRPM &&& 0xFF, rawRPM >>> 8 &&& 0xFF, 0, 0]

/-- `CarControl::sendFakeRPM`. -/
def sendFakeRPM (canBus : Option Transceiver) (rpm : Nat) : Bool :=
  match canBus with
  | none => false
  | some _ => CarControl.sendCanFrame canBus 0x0aa (sendFakeRPM_data rpm) 8

/-- The ignition-status priority rule exactly as the claim words it:
RPM > 400 wins outright; otherwise the key state decides when available
(off/inserting/position-1 give OFF, position-2/cranking give SECOND);
otherwise the legacy engine flag decides. -/
def ignitionSpec (st : CarState) : IgnitionStatus :=
  if 400 < st.engineRPM then .IGNITION_RUNNING
  else if st.keyStateAvailable then
    match getKeyState st with
    | .KEY_POSITION_2 => .IGNITION_SECOND
    | .KEY_CRANKING => .IGNITION_SECOND
    | _ => .IGNITION_OFF
  else if st.engineFlagFromCAN then .IGNITION_SECOND else .IGNITION_OFF

/-- The engine-running rule exactly as the claim words it: true iff
(key state available AND key in {position-2, cranking} AND RPM > 400),
with the legacy-flag fallback used only when the key state is
unavailable. -/
def engineRunningSpec (st : CarState) : Bool :=
  decide ((st.keyStateAvailable = true ∧
      (getKeyState st = .KEY_POSITION_2 ∨ getKeyState st = .KEY_CRANKING) ∧
      400 < st.engineRPM) ∨
    (st.keyStateAvailable = false ∧ st.engineFlagFromCAN = true ∧ 400 < st.engineRPM))

/-- `BLOWER_*` flags from ClimateControl.hpp. -/
def BLOWER_AUTO : Nat := 0x00

def BLOWER_WINDSHIELD : Nat := 0x01

def BLOWER_CENTER : Nat := 0x02

def BLOWER_FOOTWELL : Nat := 0x04

/-- `struct ClimateState` from ClimateControl.hpp. -/
structure ClimateState where
  fanSpeed : Nat
  fanOn : Bool
  driverTemp : Int
  passengerTemp : Int
  acActive : Bool
  blowerState : Nat
  driverSeatHeater : Nat
  passengerSeatHeater : Nat
deriving DecidableEq, Repr

/-- The zero-initialised climate snapshot from the `ClimateControl`
constructor. -/
def ClimateState.init : ClimateState :=
  { fanSpeed := 0, fanOn := false, driverTemp := 0, passengerTemp := 0,
    acActive := false, blowerState := BLOWER_AUTO, driverSeatHeater := 0,
    passengerSeatHeater := 0 }

/-- `ClimateControl::parseCanFrame`: the climate decode table
(identifiers 0x2e6, 0x2ea, 0x242, 0x232, 0x22a). -/
def ClimateControl.parseCanFrame (st : ClimateState) (id : Nat) (data : List Nat)
    (len : Nat) : ClimateState :=
  if id = 0x2e6 then
    let st1 :=
      if len > 2 then
        if byteAt data 0 = 0x00 ∧ byteAt data 1 = 0x64 ∧ byteAt data 2 = 0x1E then
          { st with blowerState := BLOWER_AUTO }
        else
          let bs : Nat := 0
          let bs := if byteAt data 0 > 0 then bs ||| BLOWER_WINDSHIELD else bs
          let bs := if byteAt data 1 > 0 then bs ||| BLOWER_CENTER else bs
          let bs := if byteAt data 2 > 0 then bs ||| BLOWER_FOOTWELL else bs
          if bs = 0 then { st with blowerState := BLOWER_AUTO }
          else { st with blowerState := bs }
      else st
    let st2 := if len > 5 then { st1 with fanSpeed := byteAt data 5 &&& 0x07 } else st1
    if len > 7 then
      if 0x20 ≤ byteAt data 7 ∧ byteAt data 7 ≤ 0x38 then
        { st2 with driverTemp := ((16 + (byteAt data 7 - 0x20) * 12 / 24 : Nat) : Int) }
      else st2
    else st2
  else if id = 0x2ea then
    if len > 7 then
      if 0x20 ≤ byteAt data 7 ∧ byteAt data 7 ≤ 0x38 then
        { st with passengerTemp := ((16 + (byteAt data 7 - 0x20) * 12 / 24 : Nat) : Int) }
      else st
    else st
  else if id = 0x242 then
    let st1 := if len > 0 then { st with acActive := getBit (byteAt data 0) 0 } else st
    if len > 2 then { st1 with fanOn := getBit (byteAt data 2) 0 } else st1
  else if id = 0x232 then
    if len > 0 then { st with driverSeatHeater := (byteAt data 0 &&& 0xF0) >>> 4 } else st
  else if id = 0x22a then
    if len > 0 then { st with passengerSeatHeater := (byteAt data 0 &&& 0xF0) >>> 4 } else st
  else st

/-- `ClimateControl::getFanSpeed`: the raw CAN minimum of 1 with the fan
off is reported as 0. -/
def getFanSpeed (st : ClimateState) : Nat :=
  if st.fanSpeed = 1 ∧ st.fanOn = false then 0 else st.fanSpeed

/-- `ClimateControl::sendCanFrame`: builds the frame and calls
`canBus->write(frame)` but DISCARDS the write result, returning true
whenever a bus is attached (false only for a null bus). The list returned
here is the frame handed to the transceiver. -/
def ClimateControl.sendCanFrame (canBus : Option Transceiver) (id : Nat)
    (data : List Nat) (len : Nat) : Bool × List CANFrame :=
  match canBus with
  | none => (false, [])
  | some _ => (true, [mkTxFrame id data len])

/-- `{0xfd, 0xff}` zero-padded to the 8-byte array. -/
def heaterPressData : List Nat := [0xfd, 0xff, 0, 0, 0, 0, 0, 0]

/-- `{0xfc, 0xff}` zero-padded to the 8-byte array. -/
def heaterReleaseData : List Nat := [0xfc, 0xff, 0, 0, 0, 0, 0, 0]

/-- `ClimateControl::toggleDriverSeatHeater`: press then release on 0x1e7
(dlc 2); unconditionally true when a bus is attached. -/
def toggleDriverSeatHeater (canBus : Option Transceiver) : Bool × List CANFrame :=
  match canBus with
  | none => (false, [])
  | some _ =>
    let press := ClimateControl.sendCanFrame canBus 0x1e7 heaterPressData 2
    let release := ClimateControl.sendCanFrame canBus 0x1e7 heaterReleaseData 2
    (true, press.2 ++ release.2)

/-- `ClimateControl::togglePassengerSeatHeater`: press then release on
0x1e8 (dlc 1). -/
def togglePassengerSeatHeater (canBus : Option Transceiver) : Bool × List CANFrame :=
  match canBus with
  | none => (false, [])
  | some _ =>
    let press := ClimateControl.sendCanFrame canBus 0x1e8 heaterPressData 1
    let release := ClimateControl.sendCanFrame canBus 0x1e8 heaterReleaseData 1
    (true, press.2 ++ release.2)

/-- `uint8_t` narrowing of a C `int` value. -/
def uint8OfInt (x : Int) : Nat := (x % 256).toNat

/-- Position on the forward-only heater cycle 0→3→2→1→0: the C expression
`level == 0 ? 0 : 4 - level` (int arithmetic narrowed to `uint8_t`). -/
def heaterPos (level : Nat) : Nat :=
  if level = 0 then 0 else uint8OfInt (4 - (level : Int))

/-- `clicksNeeded = (desiredPos - currentPos + 4) % 4` in C `int`
arithmetic (truncated `%`) narrowed to `uint8_t`. -/
def clicksNeededFn (currentPos desiredPos : Nat) : Nat :=
  uint8OfInt (Int.tmod ((desiredPos : Int) - (currentPos : Int) + 4) 4)

/-- `ClimateControl::setDriverSeatHeater`: rejects levels above 3 (and a
null bus); otherwise issues `clicksNeeded` toggle press/release pairs. -/
def setDriverSeatHeater (canBus : Option Transceiver) (st : ClimateState)
    (desiredLevel : Nat) : Bool × List CANFrame :=
  match canBus with
  | none => (false, [])
  | some _ =>
    if desiredLevel > 3 then (false, [])
    else
      let clicksNeeded := clicksNeededFn (heaterPos st.driverSeatHeater) (heaterPos desiredLevel)
      if clicksNeeded = 0 then (true, [])
      else (true, (List.replicate clicksNeeded (toggleDriverSeatHeater canBus).2).flatten)

/-- `ClimateControl::setPassengerSeatHeater`. -/
def setPassengerSeatHeater (canBus : Option Transceiver) (st : ClimateState)
    (desiredLevel : Nat) : Bool × List CANFrame :=
  match canBus with
  | none => (false, [])
  | some _ =>
    if desiredLevel > 3 then (false, [])
    else
      let clicksNeeded := clicksNeededFn (heaterPos st.passengerSeatHeater) (heaterPos desiredLevel)
      if clicksNeeded = 0 then (true, [])
      else (true, (List.replicate clicksNeeded (togglePassengerSeatHeater canBus).2).flatten)

/-- The claim's position mapping: level 0 ↦ 0, level L > 0 ↦ 4 − L. -/
def posSpec (level : Nat) : Nat := if level = 0 then 0 else 4 - level

/-- The claim's step count: forward distance on the cycle,
`(desiredPos - currentPos + 4) mod 4`. -/
def stepsSpec (cur des : Nat) : Nat := (posSpec des + 4 - posSpec cur) % 4

/-- A transceiver whose write always fails. -/
def failWrite : Transceiver := fun _ => false

/-- `#define BUTTON_PRESS_DURATION_MS 200` from config.h. -/
def BUTTON_PRESS_DURATION_MS : Nat := 200

/-- `unsigned long` (32-bit) subtraction with wrap-around, the C semantics
of every `currentTime - startTime` elapsed-time check. -/
def ulSub (a b : Nat) : Nat :=
  (a % 4294967296 + 4294967296 - b % 4294967296) % 4294967296

/-- The closed set of step functions ever pushed into `CarControl`'s
`updateFunctions` vector (only `updateDomeLightControl` in the source). -/
inductive UpdFn
  | updateDomeLightControl
deriving DecidableEq, Repr

/-- The dome-light sequencer state: the `canBus` pointer presence and the
snapshot's `domeLightBrightness` field read by `setDomeLight`, the
`domeLightCommand.pending` flag, the static `pressTime`/`active` locals of
`updateDomeLightControl`, and the `updateFunctions` vector. -/
structure DomeCtl where
  canBusPresent : Bool
  domeLightBrightness : Nat
  pending : Bool
  pressTime : Nat
  active : Bool
  updateFunctions : List UpdFn
deriving DecidableEq, Repr

/-- The sequencer state right after the `CarControl` constructor and
`init` (zeroed snapshot, no pending command, empty active set). -/
def DomeCtl.start (busPresent : Bool) : DomeCtl :=
  { canBusPresent := busPresent, domeLightBrightness := 0,
    pending := false, pressTime := 0, active := false, updateFunctions := [] }

/-- `CarControl::setDomeLight`: no-op success when the light is already in
the desired state (brightness > 50 means on); otherwise flags the command
pending and appends the step function unless already queued. -/
def setDomeLight (s : DomeCtl) (desired : Bool) : Bool × DomeCtl :=
  if !s.canBusPresent then (false, s)
  else
    let currentlyOn := decide (s.domeLightBrightness > 50)
    if currentlyOn = desired then (true, s)
    else
      let s1 := { s with pending := true }
      let s2 :=
        if UpdFn.updateDomeLightControl ∈ s1.updateFunctions then s1
        else { s1 with updateFunctions := s1.updateFunctions ++ [.updateDomeLightControl] }
      (true, s2)

/-- The dome-light press frame `0x1e3 : f1 ff` (dlc 2). -/
def domePressFrame : CANFrame := mkTxFrame 0x1e3 [0xf1, 0xff, 0, 0, 0, 0, 0, 0] 2

/-- The dome-light release frame `0x1e3 : f0 ff` (dlc 2). -/
def domeReleaseFrame : CANFrame := mkTxFrame 0x1e3 [0xf0, 0xff, 0, 0, 0, 0, 0, 0] 2

/-- One invocation of the `updateDomeLightControl` helper: consume the
pending flag (sending the press frame, recording the press time), then
report done (false) when inactive or once 200ms elapsed (sending the
release frame), else still-running (true). Frames reach the bus only when
it is attached. -/
def updateDomeLightControlStep (s : DomeCtl) (now : Nat) : Bool × DomeCtl × List CANFrame :=
  let s1 := if s.pending then { s with pending := false, active := true, pressTime := now } else s
  let sent1 : List CANFrame :=
    if s.pending ∧ s.canBusPresent then [domePressFrame] else []
  if !s1.active then (false, s1, sent1)
  else if ulSub now s1.pressTime ≥ BUTTON_PRESS_DURATION_MS then
    (false, { s1 with active := false },
      sent1 ++ if s.canBusPresent then [domeReleaseFrame] else [])
  else (true, s1, sent1)

/-- The `CarControl::update` loop body over the `updateFunctions` vector:
poll each entry in order, keep exactly those reporting true. -/
def runUpdateFns (s : DomeCtl) (now : Nat) : List UpdFn → DomeCtl × List UpdFn × List CANFrame
  | [] => (s, [], [])
  | .updateDomeLightControl :: rest =>
    let r := updateDomeLightControlStep s now
    let rec0 := runUpdateFns r.2.1 now rest
    (rec0.1, (if r.1 then [UpdFn.updateDomeLightControl] else []) ++ rec0.2.1, r.2.2 ++ rec0.2.2)

/-- `CarControl::update`: one sequencer tick at time `now`. -/
def CarControl.update (s : DomeCtl) (now : Nat) : DomeCtl × List CANFrame :=
  let r := runUpdateFns s now s.updateFunctions
  ({ r.1 with updateFunctions := r.2.1 }, r.2.2)

/-- The application-visible operations that touch the dome-light
sequencer: a `setDomeLight` call, an `update` tick, and a 0x286 decode
refreshing the brightness field. -/
inductive DLOp
  | set (desired : Bool)
  | tick (now : Nat)
  | brightnessFrame (b : Nat)
deriving DecidableEq, Repr

/-- Run a sequence of dome-light operations. -/
def runDLOps (s : DomeCtl) : List DLOp → DomeCtl
  | [] => s
  | .set d :: rest => runDLOps (setDomeLight s d).2 rest
  | .tick now :: rest => runDLOps (CarControl.update s now).1 rest
  | .brightnessFrame b :: rest => runDLOps { s with domeLightBrightness := b % 256 } rest

/-- Number of dome-light step-function entries in the active set. -/
def dlCount (s : DomeCtl) : Nat := s.updateFunctions.count .updateDomeLightControl

/-- `enum ButtonState` from CustomKeys.h. -/
inductive ButtonState
  | IDLE
  | FIRST_PRESS_DOWN
  | WAITING_FOR_SECOND_PRESS
  | SECOND_PRESS_DOWN
  | LONG_PRESS_ACTIVE
deriving DecidableEq, Repr

/-- `LONG_PRESS_THRESHOLD = 800` ms from CustomKeys.h. -/
def LONG_PRESS_THRESHOLD : Nat := 800

/-- `DOUBLE_PRESS_WINDOW = 400` ms from CustomKeys.h. -/
def DOUBLE_PRESS_WINDOW : Nat := 400

/-- The gesture events: the `onSinglePress` / `onDoublePress` /
`onLongPress` actions invoked by the state machine. -/
inductive GEvent
  | single
  | double
  | long
deriving DecidableEq, Repr

/-- The `CustomKeys` machine state: `state`, `pressStartTime`,
`firstReleaseTime`, `lastButtonState`. -/
structure CKState where
  state : ButtonState
  pressStartTime : Nat
  firstReleaseTime : Nat
  lastButtonState : Bool
deriving DecidableEq, Repr

/-- The constructor/init state: `IDLE`, zero timestamps, last sample
false. -/
def CKState.init : CKState :=
  { state := .IDLE, pressStartTime := 0, firstReleaseTime := 0, lastButtonState := false }

/-- `CustomKeys::update` for one tick: the `switch` over the machine
state, with `lastButtonState` refreshed at the end of the tick. An event
in the result records an action invocation at this tick's time. -/
def CustomKeys.update (ck : CKState) (buttonPressed : Bool) (currentTime : Nat) :
    CKState × List (Nat × GEvent) :=
  let r : CKState × List (Nat × GEvent) :=
    match ck.state with
    | .IDLE =>
      if buttonPressed ∧ ¬ck.lastButtonState then
        ({ ck with state := .FIRST_PRESS_DOWN, pressStartTime := currentTime }, [])
      else (ck, [])
    | .FIRST_PRESS_DOWN =>
      if ¬buttonPressed then
        ({ ck with state := .WAITING_FOR_SECOND_PRESS, firstReleaseTime := currentTime }, [])
      else if ulSub currentTime ck.pressStartTime ≥ LONG_PRESS_THRESHOLD then
        ({ ck with state := .LONG_PRESS_ACTIVE }, [(currentTime, .long)])
      else (ck, [])
    | .WAITING_FOR_SECOND_PRESS =>
      if buttonPressed ∧ ¬ck.lastButtonState then
        ({ ck with state := .SECOND_PRESS_DOWN }, [])
      else if ulSub currentTime ck.firstReleaseTime ≥ DOUBLE_PRESS_WINDOW then
        ({ ck with state := .IDLE }, [(currentTime, .single)])
      else (ck, [])
    | .SECOND_PRESS_DOWN =>
      if ¬buttonPressed then ({ ck with state := .IDLE }, [(currentTime, .double)])
      else (ck, [])
    | .LONG_PRESS_ACTIVE =>
      if ¬buttonPressed then ({ ck with state := .IDLE }, []) else (ck, [])
  ({ r.1 with lastButtonState := buttonPressed }, r.2)

/-- Run the machine over a sampled trace of (time, pressed) ticks,
collecting all events fired. -/
def CustomKeys.run (ck : CKState) : List (Nat × Bool) → CKState × List (Nat × GEvent)
  | [] => (ck, [])
  | (t, b) :: rest =>
    let r := CustomKeys.update ck b t
    let rr := CustomKeys.run r.1 rest
    (rr.1, r.2 ++ rr.2)

/-! ### Theorems -/

theorem pushSeq_ok (fs : List CANFrame) : ∀ b : CANBusBuf,
    b.bufferTail = 0 → b.bufferHead + fs.length ≤ 31 →
    (pushSeq b fs).1 = List.replicate fs.length true ∧
    (pushSeq b fs).2.bufferHead = b.bufferHead + fs.length ∧
    (pushSeq b fs).2.bufferTail = 0 ∧
    ∀ j, (pushSeq b fs).2.buffer j =
      if b.bufferHead ≤ j ∧ j < b.bufferHead + fs.length then
        fs.getD (j - b.bufferHead) ⟨0, 0, []⟩
      else b.buffer j := by
  induction fs with
  | nil =>
    intro b ht hlen
    refine ⟨rfl, by simp [pushSeq], ht, ?_⟩
    intro j
    simp only [pushSeq, List.length_nil, Nat.add_zero]
    have : ¬(b.bufferHead ≤ j ∧ j < b.bufferHead) := by omega
    simp [this]
  | cons f fs ih =>
    intro b ht hlen
    have hlen' : b.bufferHead + 1 ≤ 31 := by
      simp [List.length_cons] at hlen; omega
    have hmod : (b.bufferHead + 1) % CAN_BUFFER_SIZE = b.bufferHead + 1 := by
      apply Nat.mod_eq_of_lt; simp [CAN_BUFFER_SIZE]; omega
    have hne : (b.bufferHead + 1) % CAN_BUFFER_SIZE ≠ b.bufferTail := by
      rw [hmod, ht]; omega
    set b' : CANBusBuf :=
      { buffer := fun j => if j = b.bufferHead then f else b.buffer j,
        bufferHead := (b.bufferHead + 1) % CAN_BUFFER_SIZE,
        bufferTail := b.bufferTail } with hb'
    have hput : bufferPut b f = (true, b') := by
      simp [bufferPut, hne, hb']
    have hstep : pushSeq b (f :: fs) =
        ((bufferPut b f).1 :: (pushSeq (bufferPut b f).2 fs).1,
         (pushSeq (bufferPut b f).2 fs).2) := rfl
    have hb'tail : b'.bufferTail = 0 := by rw [hb']; exact ht
    have hb'head : b'.bufferHead = b.bufferHead + 1 := by rw [hb']; exact hmod
    have hb'len : b'.bufferHead + fs.length ≤ 31 := by
      rw [hb'head]; simp [List.length_cons] at hlen; omega
    obtain ⟨ih1, ih2, ih3, ih4⟩ := ih b' hb'tail hb'len
    rw [hstep, hput]
    refine ⟨?_, ?_, ih3, ?_⟩
    · simp [ih1, List.replicate_succ]
    · simp only [List.length_cons]
      rw [ih2, hb'head]; omega
    · intro j
      rw [ih4 j, hb'head]
      simp only [List.length_cons, hb']
      by_cases hj2 : b.bufferHead + 1 ≤ j ∧ j < b.bufferHead + 1 + fs.length
      · rw [if_pos hj2,
          if_pos (show b.bufferHead ≤ j ∧ j < b.bufferHead + (fs.length + 1) by omega)]
        have he : j - b.bufferHead = (j - (b.bufferHead + 1)) + 1 := by omega
        rw [he, List.getD_cons_succ]
      · rw [if_neg hj2]
        by_cases hj1 : j = b.bufferHead
        · subst hj1
          rw [if_pos rfl, if_pos (show b.bufferHead ≤ b.bufferHead ∧
            b.bufferHead < b.bufferHead + (fs.length + 1) by omega)]
          simp
        · rw [if_neg hj1, if_neg (show ¬(b.bufferHead ≤ j ∧
            j < b.bufferHead + (fs.length + 1)) by omega)]

theorem drainN_ok (n : Nat) : ∀ (m : Nat) (b : CANBusBuf),
    n ≤ m → b.bufferTail + n ≤ 31 → b.bufferHead = b.bufferTail + n →
    drainN b m = (List.range n).map (fun i => b.buffer (b.bufferTail + i)) := by
  induction n with
  | zero =>
    intro m b _ _ hhead
    cases m with
    | zero => simp [drainN]
    | succ m => simp [drainN, bufferGet, hhead]
  | succ n ih =>
    intro m b hm hbound hhead
    cases m with
    | zero => omega
    | succ m =>
      have hne : b.bufferHead ≠ b.bufferTail := by omega
      have hmod : (b.bufferTail + 1) % CAN_BUFFER_SIZE = b.bufferTail + 1 := by
        apply Nat.mod_eq_of_lt; simp [CAN_BUFFER_SIZE]; omega
      have hstep : drainN b (m + 1) =
          b.buffer b.bufferTail ::
            drainN { b with bufferTail := (b.bufferTail + 1) % CAN_BUFFER_SIZE } m := by
        simp [drainN, bufferGet, hne]
      have hrec := ih m { b with bufferTail := (b.bufferTail + 1) % CAN_BUFFER_SIZE }
        (by omega) (by simp only [hmod]; omega) (by simp only [hmod]; omega)
      rw [hstep, hrec, List.range_succ_eq_map]
      simp only [List.map_cons, List.map_map, Nat.add_zero]
      apply congrArg
      apply List.map_congr_left
      intro i _
      simp only [Function.comp_apply, hmod]
      congr 1
      omega

theorem getD_range_map (fs : List CANFrame) :
    (List.range fs.length).map (fun i => fs.getD i ⟨0, 0, []⟩) = fs := by
  apply List.ext_getElem
  · simp
  · intro i h1 h2
    simp only [List.getElem_map, List.getElem_range]
    rw [List.getD_eq_getElem]

set_option maxRecDepth 10000 in
/-- C1, counterexample: the claim as stated is false — starting from an
empty buffer, the 32nd push already fails (the ring keeps one slot free to tell full from empty),
so pushing 32 frames does not succeed for each push. -/
theorem C1_counterexample :
    ((pushSeq CANBusBuf.empty (List.replicate 32 ⟨0x0AA, 8, [1, 2, 3, 4, 5, 6, 7, 8]⟩)).1.getD 31 true
      = false) ∧
    (pushSeq CANBusBuf.empty (List.replicate 32 ⟨0x0AA, 8, [1, 2, 3, 4, 5, 6, 7, 8]⟩)).1
      ≠ List.replicate 32 true := by
  have hfalse : (pushSeq CANBusBuf.empty
      (List.replicate 32 ⟨0x0AA, 8, [1, 2, 3, 4, 5, 6, 7, 8]⟩)).1.getD 31 true = false := by
    decide
  refine ⟨hfalse, fun h => ?_⟩
  rw [h] at hfalse
  exact absurd hfalse (by decide)

/-- C1 (amended): the ring buffer's usable capacity is `CAN_BUFFER_SIZE - 1 = 31`
frames. From an empty buffer, pushing 31 frames succeeds for each push; the
32nd push returns false with the buffer state unchanged; and draining (with
as many attempts as one likes, here 31 and also `CAN_BUFFER_SIZE` attempts)
returns exactly those 31 frames in push order. -/
theorem C1_ring_buffer (fs : List CANFrame) (g : CANFrame) (hlen : fs.length = 31) :
    (pushSeq CANBusBuf.empty fs).1 = List.replicate 31 true ∧
    bufferPut (pushSeq CANBusBuf.empty fs).2 g = (false, (pushSeq CANBusBuf.empty fs).2) ∧
    drainN (pushSeq CANBusBuf.empty fs).2 31 = fs ∧
    drainN (pushSeq CANBusBuf.empty fs).2 CAN_BUFFER_SIZE = fs := by
  obtain ⟨h1, h2, h3, h4⟩ := pushSeq_ok fs CANBusBuf.empty rfl
    (by simp [CANBusBuf.empty, hlen])
  simp only [show CANBusBuf.empty.bufferHead = 0 from rfl, Nat.zero_add, Nat.sub_zero,
    Nat.zero_le, true_and] at h2 h4
  have hhead : (pushSeq CANBusBuf.empty fs).2.bufferHead = 31 := by rw [h2, hlen]
  have hbuf : ∀ j, j < 31 →
      (pushSeq CANBusBuf.empty fs).2.buffer j = fs.getD j ⟨0, 0, []⟩ := by
    intro j hj
    rw [h4 j, if_pos (by omega)]
  have hdrain : ∀ m, 31 ≤ m → drainN (pushSeq CANBusBuf.empty fs).2 m = fs := by
    intro m hm
    have hd := drainN_ok 31 m (pushSeq CANBusBuf.empty fs).2 hm (by omega) (by omega)
    rw [hd]
    have heq : ∀ i ∈ List.range 31,
        (pushSeq CANBusBuf.empty fs).2.buffer ((pushSeq CANBusBuf.empty fs).2.bufferTail + i)
          = fs.getD i ⟨0, 0, []⟩ := by
      intro i hi
      simp only [List.mem_range] at hi
      rw [h3, Nat.zero_add]
      exact hbuf i hi
    rw [List.map_congr_left heq]
    calc (List.range 31).map (fun i => fs.getD i ⟨0, 0, []⟩)
        = (List.range fs.length).map (fun i => fs.getD i ⟨0, 0, []⟩) := by rw [hlen]
      _ = fs := getD_range_map fs
  refine ⟨by rw [h1, hlen], ?_, hdrain 31 (by omega),
    hdrain CAN_BUFFER_SIZE (by simp [CAN_BUFFER_SIZE])⟩
  have hfull : ((pushSeq CANBusBuf.empty fs).2.bufferHead + 1) % CAN_BUFFER_SIZE
      = (pushSeq CANBusBuf.empty fs).2.bufferTail := by
    rw [hhead, h3]; decide
  simp [bufferPut, hfull]

/-- Witness for `C1_ring_buffer` at a concrete list of 31 distinct frames. -/
theorem C1_ring_buffer_witness :
    (pushSeq CANBusBuf.empty ((List.range 31).map fun i => ⟨i, 0, []⟩)).1
      = List.replicate 31 true ∧
    bufferPut (pushSeq CANBusBuf.empty ((List.range 31).map fun i => ⟨i, 0, []⟩)).2 ⟨99, 0, []⟩
      = (false, (pushSeq CANBusBuf.empty ((List.range 31).map fun i => ⟨i, 0, []⟩)).2) ∧
    drainN (pushSeq CANBusBuf.empty ((List.range 31).map fun i => ⟨i, 0, []⟩)).2 31
      = (List.range 31).map (fun i => ⟨i, 0, []⟩) ∧
    drainN (pushSeq CANBusBuf.empty ((List.range 31).map fun i => ⟨i, 0, []⟩)).2 CAN_BUFFER_SIZE
      = (List.range 31).map (fun i => ⟨i, 0, []⟩) :=
  C1_ring_buffer ((List.range 31).map fun i => ⟨i, 0, []⟩) ⟨99, 0, []⟩ (by simp)

theorem lor_byte (x b : Nat) (hb : b < 256) : x <<< 8 ||| b = 256 * x + b := by
  have hb' : b < 2 ^ 8 := lt_of_lt_of_eq hb (by norm_num)
  rw [Nat.shiftLeft_eq]
  calc x * 2 ^ 8 ||| b = 2 ^ 8 * x ||| b := by rw [Nat.mul_comm]
    _ = 2 ^ 8 * x + b := (Nat.mul_add_lt_is_or hb' x).symm
    _ = 256 * x + b := by norm_num

theorem and255 (x : Nat) : x &&& 0xFF = x % 256 := by
  have h := Nat.and_pow_two_sub_one_eq_mod x 8
  norm_num at h
  exact h

theorem byteAt_lt (data : List Nat) (i : Nat) : byteAt data i < 256 :=
  Nat.mod_lt _ (by norm_num)

theorem byteAt_eq (data : List Nat) (hb : Bytes data) (i : Nat) :
    byteAt data i = data.getD i 0 := by
  unfold byteAt
  rcases Nat.lt_or_ge i data.length with h | h
  · have hmem : data.getD i 0 ∈ data := by
      rw [List.getD_eq_getElem _ _ h]
      exact List.getElem_mem _
    exact Nat.mod_eq_of_lt (hb _ hmem)
  · rw [List.getD_eq_default _ _ h]

/-- C2: for every CAN frame with the RPM/throttle identifier 0x0AA and
`dlc > 3`, with `r` the little-endian 16-bit value of payload bytes 2-3:
if byte 6 is present (`dlc > 6`) and equals 0xB4, the decoded throttle
position stored in the snapshot is 255; otherwise if `r ≤ 255` it is 0;
otherwise it is `min (((r - 255) * 254) / 64809) 254` in integer
arithmetic. -/
theorem C2_throttle_decode (st : CarState) (data : List Nat) (len : Nat)
    (hb : Bytes data) (hlen : 3 < len) :
    (parseCanFrame st 0x0aa data len).throttlePosition =
      if 6 < len ∧ data.getD 6 0 = 0xB4 then 255
      else if 256 * data.getD 3 0 + data.getD 2 0 ≤ 255 then 0
      else min ((256 * data.getD 3 0 + data.getD 2 0 - 255) * 254 / 64809) 254 := by
  have h0 : ¬len = 0 := by omega
  have hlor : byteAt data 3 <<< 8 ||| byteAt data 2 = 256 * byteAt data 3 + byteAt data 2 :=
    lor_byte _ _ (byteAt_lt data 2)
  have e2 := byteAt_eq data hb 2
  have e3 := byteAt_eq data hb 3
  have e6 := byteAt_eq data hb 6
  by_cases h5 : 5 < len
  · simp only [parseCanFrame, if_neg h0, h5, hlen, if_true, hlor, e2, e3, e6]
    norm_num
    split_ifs <;> simp_all <;> omega
  · simp only [parseCanFrame, if_neg h0, h5, hlen, if_true, if_false, hlor, e2, e3, e6]
    norm_num
    split_ifs <;> simp_all <;> omega

/-- Witness for `C2_throttle_decode`: raw throttle 0x1000 = 4096 decodes to
`min ((4096 - 255) * 254 / 64809) 254 = 15`. -/
theorem C2_throttle_decode_witness :
    (parseCanFrame CarState.init 0x0aa [0, 0, 0x00, 0x10, 0, 0, 0, 0] 8).throttlePosition
      = 15 := by
  have h := C2_throttle_decode CarState.init [0, 0, 0x00, 0x10, 0, 0, 0, 0] 8
    (by intro b hbm; fin_cases hbm <;> omega) (by omega)
  rw [h]
  decide

/-- RPM decode rule of identifier 0x0AA (`dlc > 5`): the stored
`engineRPM` is the little-endian 16-bit value of bytes 4-5 divided by 4
(integer floor division). -/
theorem rpm_decode (st : CarState) (data : List Nat) (len : Nat)
    (hb : Bytes data) (h5 : 5 < len) :
    (parseCanFrame st 0x0aa data len).engineRPM
      = (256 * data.getD 5 0 + data.getD 4 0) / 4 := by
  have h0 : ¬len = 0 := by omega
  have hlen : 3 < len := by omega
  have hlor : byteAt data 5 <<< 8 ||| byteAt data 4 = 256 * byteAt data 5 + byteAt data 4 :=
    lor_byte _ _ (byteAt_lt data 4)
  have e4 := byteAt_eq data hb 4
  have e5 := byteAt_eq data hb 5
  simp only [parseCanFrame, if_neg h0, h5, hlen, if_true, hlor, e4, e5]
  norm_num
  split_ifs <;> simp_all

theorem bytes_fakeRPM (rpm : Nat) : Bytes (sendFakeRPM_data rpm) := by
  intro b hbm
  simp only [sendFakeRPM_data] at hbm
  fin_cases hbm <;> first | omega | (simp only [and255]; omega)

theorem fakeRPM_getD4 (rpm : Nat) :
    (sendFakeRPM_data rpm).getD 4 0 = rpm * 4 % 65536 % 256 := by
  simp [sendFakeRPM_data, and255]

theorem fakeRPM_getD5 (rpm : Nat) :
    (sendFakeRPM_data rpm).getD 5 0 = rpm * 4 % 65536 / 256 % 256 := by
  simp [sendFakeRPM_data, and255, Nat.shiftRight_eq_div_pow]

/-- C4: decoding identifier 0x0AA with `dlc > 5` stores
`engineRPM = rawRPM / 4` where `rawRPM` is the little-endian 16-bit value
of bytes 4-5; the encode/decode round-trip holds: `sendFakeRPM 2000`
builds a frame whose bytes 4-5 encode `rawRPM = 8000`; decoding a frame
with `rawRPM = 8000` yields `engineRPM = 2000`; and in general, for every
`rpm` with `4 * rpm < 65536`, decoding the frame built by `sendFakeRPM rpm`
yields `engineRPM = rpm`. -/
theorem C4_rpm_roundtrip :
    (256 * (sendFakeRPM_data 2000).getD 5 0 + (sendFakeRPM_data 2000).getD 4 0 = 8000) ∧
    (∀ (st : CarState) (data : List Nat) (len : Nat), Bytes data → 5 < len →
      (parseCanFrame st 0x0aa data len).engineRPM
        = (256 * data.getD 5 0 + data.getD 4 0) / 4) ∧
    (∀ (st : CarState) (rpm : Nat), 4 * rpm < 65536 →
      (parseCanFrame st 0x0aa (sendFakeRPM_data rpm) 8).engineRPM = rpm) ∧
    (∀ st : CarState,
      (parseCanFrame st 0x0aa [0, 0, 0xFF, 0x00, 0x40, 0x1F, 0, 0] 8).engineRPM = 2000) := by
  refine ⟨by decide, rpm_decode, ?_, ?_⟩
  · intro st rpm h
    rw [rpm_decode st _ 8 (bytes_fakeRPM rpm) (by omega), fakeRPM_getD4, fakeRPM_getD5]
    omega
  · intro st
    rw [rpm_decode st _ 8 (by intro b hbm; fin_cases hbm <;> omega) (by omega)]
    decide

/-- Witness for `C4_rpm_roundtrip`: the round trip at `rpm = 2000`. -/
theorem C4_rpm_roundtrip_witness :
    (parseCanFrame CarState.init 0x0aa (sendFakeRPM_data 2000) 8).engineRPM = 2000 :=
  C4_rpm_roundtrip.2.2.1 CarState.init 2000 (by omega)

/-- C5: `getIgnitionStatus` follows exactly the claimed priority order and
`isEngineRunning` exactly the claimed availability-gated conjunction, for
every snapshot state. -/
theorem C5_ignition_priority (st : CarState) :
    getIgnitionStatus st = ignitionSpec st ∧ isEngineRunning st = engineRunningSpec st := by
  constructor
  · unfold getIgnitionStatus ignitionSpec
    cases h : getKeyState st <;>
      cases hav : st.keyStateAvailable <;>
      cases hfl : st.engineFlagFromCAN <;>
      split_ifs <;> simp_all
  · unfold isEngineRunning engineRunningSpec
    cases hav : st.keyStateAvailable <;>
      cases hfl : st.engineFlagFromCAN <;>
      by_cases hr : 400 < st.engineRPM <;>
      simp_all

theorem engineRunning_congr (s1 s2 : CarState)
    (h1 : s1.keyStateAvailable = s2.keyStateAvailable)
    (h2 : s1.keyStateRaw = s2.keyStateRaw)
    (h3 : s1.engineRPM = s2.engineRPM)
    (h4 : s1.engineFlagFromCAN = s2.engineFlagFromCAN) :
    isEngineRunning s1 = isEngineRunning s2 := by
  unfold isEngineRunning getKeyState
  rw [h1, h2, h3, h4]

theorem parse_0x0a8_fields (st : CarState) (data : List Nat) (len : Nat) :
    (parseCanFrame st 0x0a8 data len).keyStateAvailable = st.keyStateAvailable ∧
    (parseCanFrame st 0x0a8 data len).keyStateRaw = st.keyStateRaw ∧
    (parseCanFrame st 0x0a8 data len).engineRPM = st.engineRPM ∧
    (parseCanFrame st 0x0a8 data len).engineFlagFromCAN = st.engineFlagFromCAN := by
  simp only [parseCanFrame]
  norm_num
  split_ifs <;> simp_all

/-- C10: `getTorque` returns 0 whenever `isEngineRunning` is false —
including right after a braking/torque frame (0x0A8) decoded a fresh
torque value into the snapshot — and returns the stored decoded torque
exactly when `isEngineRunning` is true. -/
theorem C10_torque_gating :
    (∀ st : CarState, isEngineRunning st = false → getTorque st = 0) ∧
    (∀ st : CarState, isEngineRunning st = true → getTorque st = st.torque) ∧
    (∀ (st : CarState) (data : List Nat) (len : Nat), isEngineRunning st = false →
      getTorque (parseCanFrame st 0x0a8 data len) = 0) := by
  refine ⟨?_, ?_, ?_⟩
  · intro st h; simp [getTorque, h]
  · intro st h; simp [getTorque, h]
  · intro st data len h
    obtain ⟨h1, h2, h3, h4⟩ := parse_0x0a8_fields st data len
    have hrun := engineRunning_congr (parseCanFrame st 0x0a8 data len) st h1 h2 h3 h4
    simp [getTorque, hrun, h]

/-- Witness for `C10_torque_gating`: a stopped engine with a nonzero stored
torque still reads torque 0, even after decoding a fresh torque frame. -/
theorem C10_torque_gating_witness :
    getTorque { CarState.init with torque := 7 } = 0 ∧
    getTorque (parseCanFrame { CarState.init with torque := 7 } 0x0a8 [0, 0x12, 0x34] 3) = 0 :=
  ⟨C10_torque_gating.1 { CarState.init with torque := 7 } (by decide),
   C10_torque_gating.2.2 { CarState.init with torque := 7 } [0, 0x12, 0x34] 3 (by decide)⟩

/-- C3, counterexample: the claim as stated is false for the seat-heater
toggle path — with a transceiver whose write always returns false, `toggleDriverSeatHeater`
still returns true, because `ClimateControl::sendCanFrame` discards the
write result. -/
theorem C3_counterexample :
    (toggleDriverSeatHeater (some failWrite)).1 = true ∧
    failWrite (mkTxFrame 0x1e7 heaterPressData 2) = false ∧
    (ClimateControl.sendCanFrame (some failWrite) 0x1e7 heaterPressData 2).1 = true :=
  ⟨rfl, rfl, rfl⟩

/-- C3 (amended): transport failure propagates as boolean false on every
path through `CarControl::sendCanFrame` — in particular the window and
fake-RPM control calls; the ClimateControl paths (seat-heater toggles) call
`ClimateControl::sendCanFrame`, which discards the transceiver write
result and returns true whenever a bus is attached, so transport failure
is NOT propagated there (dome-light press/release frames are sent from
the sequencer step function, whose boolean return means
continue/done, not transport success). -/
theorem C3_transport_propagation :
    (∀ (w : Transceiver) (id len : Nat) (data : List Nat),
      w (mkTxFrame id data len) = false → CarControl.sendCanFrame (some w) id data len = false) ∧
    (∀ (w : Transceiver) (windowMask : Nat) (pos : WindowPosition),
      w (mkTxFrame 0x0fa (setWindowData windowMask pos) 3) = false →
      setWindow (some w) windowMask pos = false) ∧
    (∀ (w : Transceiver) (rpm : Nat),
      w (mkTxFrame 0x0aa (sendFakeRPM_data rpm) 8) = false →
      sendFakeRPM (some w) rpm = false) ∧
    (∀ (w : Transceiver) (id len : Nat) (data : List Nat),
      (ClimateControl.sendCanFrame (some w) id data len).1 = true) ∧
    (∀ w : Transceiver, (toggleDriverSeatHeater (some w)).1 = true ∧
      (togglePassengerSeatHeater (some w)).1 = true) := by
  refine ⟨?_, ?_, ?_, ?_, ?_⟩ <;> intros <;>
    simp_all [CarControl.sendCanFrame, setWindow, sendFakeRPM,
      ClimateControl.sendCanFrame, toggleDriverSeatHeater, togglePassengerSeatHeater]

/-- Witness for `C3_transport_propagation`: a failed write on the window
frame makes the CarControl send path return false. -/
theorem C3_transport_propagation_witness :
    CarControl.sendCanFrame (some failWrite) 0x0fa [0xc0, 0xc0, 0xff] 3 = false :=
  C3_transport_propagation.1 failWrite 0x0fa 3 [0xc0, 0xc0, 0xff] rfl

theorem clicks_eq_steps (cur des : Nat) (hc : cur ≤ 3) (hd : des ≤ 3) :
    clicksNeededFn (heaterPos cur) (heaterPos des) = stepsSpec cur des := by
  interval_cases cur <;> interval_cases des <;> decide

/-- C7: for every current level and desired level in 0-3, the seat-heater
setters issue exactly `(desiredPos - currentPos + 4) mod 4` toggle
press/release pairs on the forward-only cycle 0→3→2→1→0 (positions:
level 0 ↦ 0, level L>0 ↦ 4−L); in particular level 2 → level 0 takes
exactly 2 steps, and stepping to the current level issues none and
returns true. -/
theorem C7_seat_heater_steps (w : Transceiver) (st : ClimateState) (desiredLevel : Nat)
    (hcur : st.driverSeatHeater ≤ 3) (hcurP : st.passengerSeatHeater ≤ 3)
    (hdes : desiredLevel ≤ 3) :
    (setDriverSeatHeater (some w) st desiredLevel
      = (true, (List.replicate (stepsSpec st.driverSeatHeater desiredLevel)
          [mkTxFrame 0x1e7 heaterPressData 2, mkTxFrame 0x1e7 heaterReleaseData 2]).flatten)) ∧
    (setPassengerSeatHeater (some w) st desiredLevel
      = (true, (List.replicate (stepsSpec st.passengerSeatHeater desiredLevel)
          [mkTxFrame 0x1e8 heaterPressData 1, mkTxFrame 0x1e8 heaterReleaseData 1]).flatten)) ∧
    (stepsSpec 2 0 = 2) ∧
    (st.driverSeatHeater = desiredLevel →
      setDriverSeatHeater (some w) st desiredLevel = (true, [])) := by
  have hnd : ¬desiredLevel > 3 := by omega
  refine ⟨?_, ?_, by decide, ?_⟩
  · simp only [setDriverSeatHeater, hnd, if_false,
      clicks_eq_steps _ _ hcur hdes, toggleDriverSeatHeater, ClimateControl.sendCanFrame]
    by_cases h0 : stepsSpec st.driverSeatHeater desiredLevel = 0 <;> simp [h0]
  · simp only [setPassengerSeatHeater, hnd, if_false,
      clicks_eq_steps _ _ hcurP hdes, togglePassengerSeatHeater, ClimateControl.sendCanFrame]
    by_cases h0 : stepsSpec st.passengerSeatHeater desiredLevel = 0 <;> simp [h0]
  · intro he
    have hz : stepsSpec st.driverSeatHeater desiredLevel = 0 := by
      rw [he]; unfold stepsSpec posSpec; split_ifs <;> omega
    simp only [setDriverSeatHeater, hnd, if_false, clicks_eq_steps _ _ hcur hdes, hz]
    simp

/-- Witness for `C7_seat_heater_steps`: stepping from level 2 to level 0
issues exactly 2 press/release toggle pairs. -/
theorem C7_seat_heater_steps_witness :
    setDriverSeatHeater (some failWrite) { ClimateState.init with driverSeatHeater := 2 } 0
      = (true, [mkTxFrame 0x1e7 heaterPressData 2, mkTxFrame 0x1e7 heaterReleaseData 2,
                mkTxFrame 0x1e7 heaterPressData 2, mkTxFrame 0x1e7 heaterReleaseData 2]) := by
  have h := (C7_seat_heater_steps failWrite { ClimateState.init with driverSeatHeater := 2 } 0
    (by decide) (by decide) (by decide)).1
  rw [h]
  decide

theorem getBit_zero (b : Nat) : getBit b 0 = Nat.testBit b 0 := by
  unfold getBit
  simp [Nat.and_one_is_mod, Nat.testBit_to_div_mod]

/-- C9: `getFanSpeed` returns 0 exactly when the decoded raw fan speed is 1
with the fan-on flag false, and the raw speed unmodified otherwise; the
fan-on flag is bit 0 of byte 2 of identifier 0x242, and the stored raw
speed (masked to 3 bits on decode of 0x2E6) is in 0-7. -/
theorem C9_fan_speed :
    (∀ st : ClimateState, st.fanSpeed = 1 → st.fanOn = false → getFanSpeed st = 0) ∧
    (∀ st : ClimateState, ¬(st.fanSpeed = 1 ∧ st.fanOn = false) → getFanSpeed st = st.fanSpeed) ∧
    (∀ (st : ClimateState) (data : List Nat) (len : Nat), Bytes data → 2 < len →
      (ClimateControl.parseCanFrame st 0x242 data len).fanOn = Nat.testBit (data.getD 2 0) 0) ∧
    (∀ (st : ClimateState) (data : List Nat) (len : Nat), 5 < len →
      (ClimateControl.parseCanFrame st 0x2e6 data len).fanSpeed ≤ 7) := by
  refine ⟨?_, ?_, ?_, ?_⟩
  · intro st h1 h2; simp [getFanSpeed, h1, h2]
  · intro st h; simp [getFanSpeed, h]
  · intro st data len hb h2
    have h0 : 0 < len := by omega
    have e2 := byteAt_eq data hb 2
    simp only [ClimateControl.parseCanFrame]
    norm_num
    simp [h0, h2, e2, getBit_zero]
  · intro st data len h5
    simp only [ClimateControl.parseCanFrame]
    norm_num
    simp only [h5, if_true]
    have hle : byteAt data 5 &&& 0x07 ≤ 7 := Nat.and_le_right
    by_cases h7 : 7 < len <;>
      by_cases ht : 0x20 ≤ byteAt data 7 ∧ byteAt data 7 ≤ 0x38 <;>
      simp [h7, ht, hle]

/-- Witness for `C9_fan_speed`: raw speed 1 with the fan off reads as 0. -/
theorem C9_fan_speed_witness :
    getFanSpeed { ClimateState.init with fanSpeed := 1 } = 0 :=
  C9_fan_speed.1 { ClimateState.init with fanSpeed := 1 } rfl rfl

theorem ulSub_small (a b : Nat) (hb : b ≤ a) (ha : a < 4294967296) :
    ulSub a b = a - b := by
  unfold ulSub; omega

theorem runUpdateFns_count (now : Nat) (l : List UpdFn) : ∀ s : DomeCtl,
    (runUpdateFns s now l).2.1.count .updateDomeLightControl
      ≤ l.count .updateDomeLightControl := by
  induction l with
  | nil => intro s; simp [runUpdateFns]
  | cons f rest ih =>
    intro s
    cases f
    simp only [runUpdateFns, List.count_append, List.count_cons]
    have := ih (updateDomeLightControlStep s now).2.1
    by_cases hk : (updateDomeLightControlStep s now).1 <;> simp [hk] <;> omega

theorem setDomeLight_count (s : DomeCtl) (d : Bool) (h : dlCount s ≤ 1) :
    dlCount (setDomeLight s d).2 ≤ 1 := by
  simp only [setDomeLight]
  split_ifs with h1 h2 h3
  · exact h
  · exact h
  · exact h
  · unfold dlCount
    simp only [List.count_append]
    have h0 : s.updateFunctions.count .updateDomeLightControl = 0 :=
      List.count_eq_zero.mpr h3
    simp [h0]

theorem ulSub_self (a : Nat) : ulSub a a = 0 := by
  unfold ulSub; omega

theorem tick_count (s : DomeCtl) (now : Nat) (h : dlCount s ≤ 1) :
    dlCount (CarControl.update s now).1 ≤ 1 := by
  unfold CarControl.update dlCount
  calc (runUpdateFns s now s.updateFunctions).2.1.count .updateDomeLightControl
      ≤ s.updateFunctions.count .updateDomeLightControl := runUpdateFns_count now _ s
    _ ≤ 1 := h

theorem runDLOps_count (ops : List DLOp) : ∀ s : DomeCtl, dlCount s ≤ 1 →
    dlCount (runDLOps s ops) ≤ 1 := by
  induction ops with
  | nil => intro s h; exact h
  | cons op rest ih =>
    intro s h
    cases op with
    | set d => exact ih _ (setDomeLight_count s d h)
    | tick now => exact ih _ (tick_count s now h)
    | brightnessFrame b => exact ih _ h

/-- C8: arming the dome light when already in the desired state returns
true with the state untouched (nothing scheduled, no frame sent by
`setDomeLight` itself); arming in the mismatched state re-arms the pending
flag and leaves exactly one queued entry; a tick on a pending command
restarts the press timing at that tick and sends the press frame; and
after any sequence of setDomeLight/update/brightness operations from the
initial state, the active set holds at most one dome-light entry. -/
theorem C8_dome_light :
    (∀ (s : DomeCtl) (desired : Bool), s.canBusPresent = true →
      decide (s.domeLightBrightness > 50) = desired → setDomeLight s desired = (true, s)) ∧
    (∀ (s : DomeCtl) (desired : Bool), s.canBusPresent = true →
      decide (s.domeLightBrightness > 50) ≠ desired →
      (setDomeLight s desired).1 = true ∧ (setDomeLight s desired).2.pending = true ∧
      (dlCount s ≤ 1 → dlCount (setDomeLight s desired).2 = 1)) ∧
    (∀ (s : DomeCtl) (now : Nat), s.pending = true →
      (updateDomeLightControlStep s now).2.1.pressTime = now ∧
      (updateDomeLightControlStep s now).2.1.active = true ∧
      (s.canBusPresent = true → domePressFrame ∈ (updateDomeLightControlStep s now).2.2)) ∧
    (∀ (busPresent : Bool) (ops : List DLOp),
      dlCount (runDLOps (DomeCtl.start busPresent) ops) ≤ 1) := by
  refine ⟨?_, ?_, ?_, ?_⟩
  · intro s desired hbus hcur
    simp only [setDomeLight, hbus]
    simp [hcur]
  · intro s desired hbus hcur
    simp only [setDomeLight, hbus]
    simp only [Bool.not_true, Bool.false_eq_true, if_false, hcur, if_neg hcur]
    by_cases hm : UpdFn.updateDomeLightControl ∈ s.updateFunctions
    · simp only [hm, if_true]
      refine ⟨trivial, trivial, fun hc => ?_⟩
      have h1 : 0 < s.updateFunctions.count .updateDomeLightControl :=
        List.count_pos_iff.mpr hm
      unfold dlCount at hc
      show s.updateFunctions.count .updateDomeLightControl = 1
      omega
    · simp only [hm, if_false]
      refine ⟨trivial, trivial, fun hc => ?_⟩
      have h0 : s.updateFunctions.count .updateDomeLightControl = 0 :=
        List.count_eq_zero.mpr hm
      show (s.updateFunctions ++ [UpdFn.updateDomeLightControl]).count .updateDomeLightControl = 1
      simp [List.count_append, h0]
  · intro s now hp
    simp only [updateDomeLightControlStep, hp, if_true]
    have hz : ¬(ulSub now now ≥ BUTTON_PRESS_DURATION_MS) := by
      rw [ulSub_self]; unfold BUTTON_PRESS_DURATION_MS; omega
    simp [hz]
  · intro busPresent ops
    exact runDLOps_count ops _ (by simp [dlCount, DomeCtl.start])

/-- Witness for `C8_dome_light`: a no-op re-arm at brightness 100 and a
concrete operation sequence keeping at most one queued entry. -/
theorem C8_dome_light_witness :
    setDomeLight { DomeCtl.start true with domeLightBrightness := 100 } true
      = (true, { DomeCtl.start true with domeLightBrightness := 100 }) ∧
    dlCount (runDLOps (DomeCtl.start true)
      [.set true, .set true, .tick 0, .set false, .tick 100, .tick 300]) ≤ 1 :=
  ⟨C8_dome_light.1 { DomeCtl.start true with domeLightBrightness := 100 } true
    (by decide) (by decide),
   C8_dome_light.2.2.2 true [.set true, .set true, .tick 0, .set false, .tick 100, .tick 300]⟩

theorem run_cons (ck : CKState) (t : Nat) (b : Bool) (rest : List (Nat × Bool)) :
    CustomKeys.run ck ((t, b) :: rest) =
      ((CustomKeys.run (CustomKeys.update ck b t).1 rest).1,
       (CustomKeys.update ck b t).2 ++ (CustomKeys.run (CustomKeys.update ck b t).1 rest).2) :=
  rfl

theorem run_append (l1 l2 : List (Nat × Bool)) : ∀ ck : CKState,
    CustomKeys.run ck (l1 ++ l2) =
      ((CustomKeys.run (CustomKeys.run ck l1).1 l2).1,
       (CustomKeys.run ck l1).2 ++ (CustomKeys.run (CustomKeys.run ck l1).1 l2).2) := by
  induction l1 with
  | nil => intro ck; simp [CustomKeys.run]
  | cons p rest ih =>
    intro ck
    obtain ⟨t, b⟩ := p
    simp only [List.cons_append, run_cons, ih, List.append_assoc]

theorem run_const (s : CKState) (l : List (Nat × Bool))
    (h : ∀ p ∈ l, CustomKeys.update s p.2 p.1 = (s, [])) :
    CustomKeys.run s l = (s, []) := by
  induction l with
  | nil => rfl
  | cons p rest ih =>
    obtain ⟨t, b⟩ := p
    have hp := h (t, b) (List.mem_cons_self _ _)
    rw [run_cons, hp]
    simp only []
    rw [ih (fun q hq => h q (List.mem_cons_of_mem _ hq))]
    simp

theorem run_piece {s1 s2 s3 : CKState} {l1 l2 : List (Nat × Bool)}
    {e1 e2 : List (Nat × GEvent)}
    (h1 : CustomKeys.run s1 l1 = (s2, e1)) (h2 : CustomKeys.run s2 l2 = (s3, e2)) :
    CustomKeys.run s1 (l1 ++ l2) = (s3, e1 ++ e2) := by
  rw [run_append, h1]
  simp [h2]

theorem run_one {s1 s2 s3 : CKState} {t : Nat} {b : Bool}
    {e : List (Nat × GEvent)} {l : List (Nat × Bool)} {e2 : List (Nat × GEvent)}
    (h1 : CustomKeys.update s1 b t = (s2, e)) (h2 : CustomKeys.run s2 l = (s3, e2)) :
    CustomKeys.run s1 ((t, b) :: l) = (s3, e ++ e2) := by
  rw [run_cons, h1]
  simp [h2]

theorem upd_idle_rise (p f t : Nat) :
    CustomKeys.update ⟨.IDLE, p, f, false⟩ true t = (⟨.FIRST_PRESS_DOWN, t, f, true⟩, []) := by
  simp [CustomKeys.update]

theorem upd_idle_low (p f t : Nat) :
    CustomKeys.update ⟨.IDLE, p, f, false⟩ false t = (⟨.IDLE, p, f, false⟩, []) := by
  simp [CustomKeys.update]

theorem upd_fpd_hold (p f t : Nat) (hp : p ≤ t) (ht : t < 4294967296) (hshort : t - p < 800) :
    CustomKeys.update ⟨.FIRST_PRESS_DOWN, p, f, true⟩ true t
      = (⟨.FIRST_PRESS_DOWN, p, f, true⟩, []) := by
  have h : ¬(ulSub t p ≥ LONG_PRESS_THRESHOLD) := by
    rw [ulSub_small t p hp ht]; unfold LONG_PRESS_THRESHOLD; omega
  simp [CustomKeys.update, h]

theorem upd_fpd_release (p f t : Nat) :
    CustomKeys.update ⟨.FIRST_PRESS_DOWN, p, f, true⟩ false t
      = (⟨.WAITING_FOR_SECOND_PRESS, p, t, false⟩, []) := by
  simp [CustomKeys.update]

theorem upd_fpd_long (p f t : Nat) (hp : p ≤ t) (ht : t < 4294967296) (hlong : 800 ≤ t - p) :
    CustomKeys.update ⟨.FIRST_PRESS_DOWN, p, f, true⟩ true t
      = (⟨.LONG_PRESS_ACTIVE, p, f, true⟩, [(t, .long)]) := by
  have h : ulSub t p ≥ LONG_PRESS_THRESHOLD := by
    rw [ulSub_small t p hp ht]; unfold LONG_PRESS_THRESHOLD; omega
  simp [CustomKeys.update, h]

theorem upd_waiting_hold (p f t : Nat) (hf : f ≤ t) (ht : t < 4294967296) (hw : t - f < 400) :
    CustomKeys.update ⟨.WAITING_FOR_SECOND_PRESS, p, f, false⟩ false t
      = (⟨.WAITING_FOR_SECOND_PRESS, p, f, false⟩, []) := by
  have h : ¬(ulSub t f ≥ DOUBLE_PRESS_WINDOW) := by
    rw [ulSub_small t f hf ht]; unfold DOUBLE_PRESS_WINDOW; omega
  simp [CustomKeys.update, h]

theorem upd_waiting_fire (p f t : Nat) (hf : f ≤ t) (ht : t < 4294967296) (hw : 400 ≤ t - f) :
    CustomKeys.update ⟨.WAITING_FOR_SECOND_PRESS, p, f, false⟩ false t
      = (⟨.IDLE, p, f, false⟩, [(t, .single)]) := by
  have h : ulSub t f ≥ DOUBLE_PRESS_WINDOW := by
    rw [ulSub_small t f hf ht]; unfold DOUBLE_PRESS_WINDOW; omega
  simp [CustomKeys.update, h]

theorem upd_waiting_rise (p f t : Nat) :
    CustomKeys.update ⟨.WAITING_FOR_SECOND_PRESS, p, f, false⟩ true t
      = (⟨.SECOND_PRESS_DOWN, p, f, true⟩, []) := by
  simp [CustomKeys.update]

theorem upd_second_hold (p f t : Nat) :
    CustomKeys.update ⟨.SECOND_PRESS_DOWN, p, f, true⟩ true t
      = (⟨.SECOND_PRESS_DOWN, p, f, true⟩, []) := by
  simp [CustomKeys.update]

theorem upd_second_release (p f t : Nat) :
    CustomKeys.update ⟨.SECOND_PRESS_DOWN, p, f, true⟩ false t
      = (⟨.IDLE, p, f, false⟩, [(t, .double)]) := by
  simp [CustomKeys.update]

theorem upd_long_hold (p f t : Nat) :
    CustomKeys.update ⟨.LONG_PRESS_ACTIVE, p, f, true⟩ true t
      = (⟨.LONG_PRESS_ACTIVE, p, f, true⟩, []) := by
  simp [CustomKeys.update]

theorem upd_long_release (p f t : Nat) :
    CustomKeys.update ⟨.LONG_PRESS_ACTIVE, p, f, true⟩ false t
      = (⟨.IDLE, p, f, false⟩, []) := by
  simp [CustomKeys.update]

theorem single_scenario (A B C : List Nat) (c : Nat)
    (hA : ∀ t ∈ A, 0 < t ∧ t < 100)
    (hB : ∀ t ∈ B, 100 < t ∧ t < 500)
    (hc : 500 ≤ c) (hcm : c < 4294967296) :
    CustomKeys.run CKState.init
      ((0, true) :: A.map (fun t => (t, true)) ++ (100, false) :: B.map (fun t => (t, false))
        ++ (c, false) :: C.map (fun t => (t, false)))
      = (⟨.IDLE, 0, 100, false⟩, [(c, .single)]) := by
  have h6 : CustomKeys.run ⟨.IDLE, 0, 100, false⟩ (C.map (fun t => (t, false)))
      = (⟨.IDLE, 0, 100, false⟩, []) := by
    apply run_const
    intro q hq
    simp only [List.mem_map] at hq
    obtain ⟨t, _, rfl⟩ := hq
    exact upd_idle_low 0 100 t
  have h5 := run_one (upd_waiting_fire 0 100 c (by omega) hcm (by omega)) h6
  have h4 : CustomKeys.run ⟨.WAITING_FOR_SECOND_PRESS, 0, 100, false⟩
      (B.map (fun t => (t, false))) = (⟨.WAITING_FOR_SECOND_PRESS, 0, 100, false⟩, []) := by
    apply run_const
    intro q hq
    simp only [List.mem_map] at hq
    obtain ⟨t, htB, rfl⟩ := hq
    obtain ⟨hb1, hb2⟩ := hB t htB
    exact upd_waiting_hold 0 100 t (by omega) (by omega) (by omega)
  have h3 := run_piece h4 h5
  have h2 := run_one (upd_fpd_release 0 0 100) h3
  have h1a : CustomKeys.run ⟨.FIRST_PRESS_DOWN, 0, 0, true⟩ (A.map (fun t => (t, true)))
      = (⟨.FIRST_PRESS_DOWN, 0, 0, true⟩, []) := by
    apply run_const
    intro q hq
    simp only [List.mem_map] at hq
    obtain ⟨t, htA, rfl⟩ := hq
    obtain ⟨ha1, ha2⟩ := hA t htA
    exact upd_fpd_hold 0 0 t (by omega) (by omega) (by omega)
  have h1 := run_piece h1a h2
  have h0 := run_one (upd_idle_rise 0 0 0) h1
  simpa using h0

theorem double_scenario (A B C D : List Nat)
    (hA : ∀ t ∈ A, 0 < t ∧ t < 50)
    (hB : ∀ t ∈ B, 50 < t ∧ t < 200)
    (_hC : ∀ t ∈ C, 200 < t ∧ t < 250) :
    CustomKeys.run CKState.init
      ((0, true) :: A.map (fun t => (t, true)) ++ (50, false) :: B.map (fun t => (t, false))
        ++ (200, true) :: C.map (fun t => (t, true)) ++ (250, false) :: D.map (fun t => (t, false)))
      = (⟨.IDLE, 0, 50, false⟩, [(250, .double)]) := by
  have h8 : CustomKeys.run ⟨.IDLE, 0, 50, false⟩ (D.map (fun t => (t, false)))
      = (⟨.IDLE, 0, 50, false⟩, []) := by
    apply run_const
    intro q hq
    simp only [List.mem_map] at hq
    obtain ⟨t, _, rfl⟩ := hq
    exact upd_idle_low 0 50 t
  have h7 := run_one (upd_second_release 0 50 250) h8
  have h6 : CustomKeys.run ⟨.SECOND_PRESS_DOWN, 0, 50, true⟩ (C.map (fun t => (t, true)))
      = (⟨.SECOND_PRESS_DOWN, 0, 50, true⟩, []) := by
    apply run_const
    intro q hq
    simp only [List.mem_map] at hq
    obtain ⟨t, _, rfl⟩ := hq
    exact upd_second_hold 0 50 t
  have h5 := run_piece h6 h7
  have h4 := run_one (upd_waiting_rise 0 50 200) h5
  have h3 : CustomKeys.run ⟨.WAITING_FOR_SECOND_PRESS, 0, 50, false⟩
      (B.map (fun t => (t, false))) = (⟨.WAITING_FOR_SECOND_PRESS, 0, 50, false⟩, []) := by
    apply run_const
    intro q hq
    simp only [List.mem_map] at hq
    obtain ⟨t, htB, rfl⟩ := hq
    obtain ⟨hb1, hb2⟩ := hB t htB
    exact upd_waiting_hold 0 50 t (by omega) (by omega) (by omega)
  have h2 := run_piece h3 h4
  have h1b := run_one (upd_fpd_release 0 0 50) h2
  have h1a : CustomKeys.run ⟨.FIRST_PRESS_DOWN, 0, 0, true⟩ (A.map (fun t => (t, true)))
      = (⟨.FIRST_PRESS_DOWN, 0, 0, true⟩, []) := by
    apply run_const
    intro q hq
    simp only [List.mem_map] at hq
    obtain ⟨t, htA, rfl⟩ := hq
    obtain ⟨ha1, ha2⟩ := hA t htA
    exact upd_fpd_hold 0 0 t (by omega) (by omega) (by omega)
  have h1 := run_piece h1a h1b
  have h0 := run_one (upd_idle_rise 0 0 0) h1
  simpa using h0

theorem long_scenario (A C : List Nat) (c r : Nat)
    (hA : ∀ t ∈ A, 0 < t ∧ t < 800)
    (hc : 800 ≤ c) (hcm : c < 4294967296) :
    CustomKeys.run CKState.init
      ((0, true) :: A.map (fun t => (t, true)) ++ (c, true) :: C.map (fun t => (t, true))
        ++ [(r, false)])
      = (⟨.IDLE, 0, 0, false⟩, [(c, .long)]) := by
  have h5 : CustomKeys.run ⟨.IDLE, 0, 0, false⟩ ([] : List (Nat × Bool))
      = (⟨.IDLE, 0, 0, false⟩, []) := rfl
  have h4 := run_one (upd_long_release 0 0 r) h5
  have h3 : CustomKeys.run ⟨.LONG_PRESS_ACTIVE, 0, 0, true⟩ (C.map (fun t => (t, true)))
      = (⟨.LONG_PRESS_ACTIVE, 0, 0, true⟩, []) := by
    apply run_const
    intro q hq
    simp only [List.mem_map] at hq
    obtain ⟨t, _, rfl⟩ := hq
    exact upd_long_hold 0 0 t
  have h2 := run_piece h3 h4
  have h1b := run_one (upd_fpd_long 0 0 c (by omega) hcm (by omega)) h2
  have h1a : CustomKeys.run ⟨.FIRST_PRESS_DOWN, 0, 0, true⟩ (A.map (fun t => (t, true)))
      = (⟨.FIRST_PRESS_DOWN, 0, 0, true⟩, []) := by
    apply run_const
    intro q hq
    simp only [List.mem_map] at hq
    obtain ⟨t, htA, rfl⟩ := hq
    obtain ⟨ha1, ha2⟩ := hA t htA
    exact upd_fpd_hold 0 0 t (by omega) (by omega) (by omega)
  have h1 := run_piece h1a h1b
  have h0 := run_one (upd_idle_rise 0 0 0) h1
  simpa using h0

/-- C6: the three end-to-end gesture scenarios, each over every sampled
trace of the required shape (segments `A`, `B`, `C`, `D` are the freely
chosen intermediate sample times).
Single press: rise observed at t=0, fall at t=100, no rise before the
first tick `c ≥ 500` — exactly one single-press fires, at that first tick
at/after 400ms past the release, and the machine ends Idle.
Double press: rise at 0, fall at 50, rise at 200, fall at 250 — exactly
one double-press fires at t=250 and the machine ends Idle.
Long press: signal high from t=0 through the first tick `c ≥ 800` and
beyond — exactly one long-press fires at that tick, and the machine
returns to Idle on the eventual release. No other event fires in any
scenario. -/
theorem C6_gesture_scenarios :
    (∀ (A B C : List Nat) (c : Nat),
      (∀ t ∈ A, 0 < t ∧ t < 100) → (∀ t ∈ B, 100 < t ∧ t < 500) →
      500 ≤ c → c < 4294967296 →
      CustomKeys.run CKState.init
        ((0, true) :: A.map (fun t => (t, true)) ++ (100, false) :: B.map (fun t => (t, false))
          ++ (c, false) :: C.map (fun t => (t, false)))
        = (⟨.IDLE, 0, 100, false⟩, [(c, .single)])) ∧
    (∀ (A B C D : List Nat),
      (∀ t ∈ A, 0 < t ∧ t < 50) → (∀ t ∈ B, 50 < t ∧ t < 200) →
      (∀ t ∈ C, 200 < t ∧ t < 250) →
      CustomKeys.run CKState.init
        ((0, true) :: A.map (fun t => (t, true)) ++ (50, false) :: B.map (fun t => (t, false))
          ++ (200, true) :: C.map (fun t => (t, true))
          ++ (250, false) :: D.map (fun t => (t, false)))
        = (⟨.IDLE, 0, 50, false⟩, [(250, .double)])) ∧
    (∀ (A C : List Nat) (c r : Nat),
      (∀ t ∈ A, 0 < t ∧ t < 800) → 800 ≤ c → c < 4294967296 →
      CustomKeys.run CKState.init
        ((0, true) :: A.map (fun t => (t, true)) ++ (c, true) :: C.map (fun t => (t, true))
          ++ [(r, false)])
        = (⟨.IDLE, 0, 0, false⟩, [(c, .long)])) :=
  ⟨single_scenario, double_scenario, long_scenario⟩

/-- Witness for `C6_gesture_scenarios`: the three scenarios on concrete
tick traces. -/
theorem C6_gesture_scenarios_witness :
    (CustomKeys.run CKState.init
      ((0, true) :: [50].map (fun t => (t, true)) ++ (100, false) :: [150, 300, 499].map (fun t => (t, false))
        ++ (500, false) :: [600].map (fun t => (t, false)))
      = (⟨.IDLE, 0, 100, false⟩, [(500, .single)])) ∧
    (CustomKeys.run CKState.init
      ((0, true) :: [25].map (fun t => (t, true)) ++ (50, false) :: [100].map (fun t => (t, false))
        ++ (200, true) :: [225].map (fun t => (t, true))
        ++ (250, false) :: [300].map (fun t => (t, false)))
      = (⟨.IDLE, 0, 50, false⟩, [(250, .double)])) ∧
    (CustomKeys.run CKState.init
      ((0, true) :: [400].map (fun t => (t, true)) ++ (800, true) :: [900].map (fun t => (t, true))
        ++ [(1000, false)])
      = (⟨.IDLE, 0, 0, false⟩, [(800, .long)])) :=
  ⟨C6_gesture_scenarios.1 [50] [150, 300, 499] [600] 500 (by decide) (by decide) (by decide) (by decide),
   C6_gesture_scenarios.2.1 [25] [100] [225] [300] (by decide) (by decide) (by decide),
   C6_gesture_scenarios.2.2 [400] [900] 800 1000 (by decide) (by decide) (by decide)⟩

end E90
